import Mathlib

/-
Shallow embedding of the pdf-questions repository.

Sources embedded:
- parseQuestionsFromText and the execute body of generateQuestionsFromTextTool
  (src/unnamed/part_002, the current revision of
  src/mastra/tools/generate-questions-from-text-tool.ts);
- extractTextFromPDF (src/unnamed/part_000, src/mastra/lib/util.ts);
- the execute body of pdfFetcherTool (src/unnamed/part_002,
  src/mastra/tools/download-pdf-tool.ts);
- generateQuestionsFromSummaryStep of
  src/mastra/workflows/generate-questions-from-pdf-workflow.ts.

JavaScript strings are modelled as Lean String / List Char (one element per
code point); JS Buffer as List UInt8; thrown exceptions as Except String;
the external completion stream and the pdf2json callback as explicit input
values.  decodeURIComponent is passed in as a total function parameter.
-/

/-- Models the character class of JS `\s` and of `String.prototype.trim`
(restricted to the ASCII whitespace the repository's inputs use). -/
def wsChar (c : Char) : Bool := c.isWhitespace

/-- Models JS `String.prototype.trim()`: drop whitespace from both ends. -/
def trimChars (l : List Char) : List Char :=
  ((l.dropWhile wsChar).reverse.dropWhile wsChar).reverse

/-- Models JS `String.prototype.split(sep)` for a one-character separator:
empty pieces are kept, exactly as in JS. -/
def splitOnChar (sep : Char) : List Char → List (List Char)
  | [] => [[]]
  | c :: cs =>
    match splitOnChar sep cs with
    | [] => [[]]
    | p :: ps => if c = sep then [] :: p :: ps else (c :: p) :: ps

/-- Anchored match of the regex `\d+[\.\)]\s*` at the head of the list:
returns (matched characters, remainder) on success.  Greedy matching of
`\d+` and `\s*` agrees with the JS engine because a digit is never `.`
or `)`. -/
def matchNumMarker (l : List Char) : Option (List Char × List Char) :=
  if (l.takeWhile Char.isDigit).isEmpty then none
  else
    match l.dropWhile Char.isDigit with
    | [] => none
    | c :: cs =>
      if c = '.' ∨ c = ')' then
        some (l.takeWhile Char.isDigit ++ c :: cs.takeWhile wsChar, cs.dropWhile wsChar)
      else none

/-- Fuel-indexed body of `normalizeChars`; the fuel (initially the length of
the list) only serves structural termination and is never exhausted, since
every step consumes at least one character. -/
def normalizeAux : Nat → List Char → List Char
  | 0, l => l
  | _ + 1, [] => []
  | n + 1, c :: cs =>
    match matchNumMarker (c :: cs) with
    | some (m, r) => '\n' :: (m ++ normalizeAux n r)
    | none => c :: normalizeAux n cs

/-- Models `text.replace(/(\d+[\.\)]\s*)/g, '\n$1')` from
parseQuestionsFromText: insert a line break immediately before every
numbered-list marker, scanning left to right without overlaps. -/
def normalizeChars (l : List Char) : List Char := normalizeAux l.length l

/-- Models `segment.replace(/^\d+[\.\)]\s*/, '')`. -/
def stripNumbering (l : List Char) : List Char :=
  match matchNumMarker l with
  | some (_, r) => r
  | none => l

/-- Models `cleaned.replace(/^[\-\*\•]\s*/, '')`. -/
def stripBullet : List Char → List Char
  | [] => []
  | c :: cs => if c = '-' ∨ c = '*' ∨ c = '•' then cs.dropWhile wsChar else c :: cs

/-- The cleaning step of parseQuestionsFromText: strip a leading numbered
marker, then a leading bullet marker, then trim. -/
def cleanSegment (l : List Char) : List Char :=
  trimChars (stripBullet (stripNumbering l))

/-- The segmentation step of parseQuestionsFromText: split the normalised
text on newlines, split each line on `?`, keep the fragments that are
non-empty after trimming and re-append a trailing `?` to each. -/
def candidateSegments (text : List Char) : List (List Char) :=
  (splitOnChar '\n' (normalizeChars text)).flatMap fun line =>
    (((splitOnChar '?' line).map trimChars).filter
        (fun p => decide (0 < p.length))).map (fun p => p ++ ['?'])

/-- The filtering predicate of parseQuestionsFromText:
`q.length > 5 && q.includes('?')`. -/
def keepQuestion (q : List Char) : Bool :=
  decide (5 < q.length) && q.contains '?'

/-- parseQuestionsFromText of src/unnamed/part_002 at the List Char level:
normalise, segment, clean, filter, and truncate to maxQuestions. -/
def parseQuestionsCore (text : List Char) (maxQuestions : Nat) : List (List Char) :=
  (((candidateSegments text).map cleanSegment).filter keepQuestion).take maxQuestions

/-- parseQuestionsFromText (src/unnamed/part_002, lines 175-202). -/
def parseQuestionsFromText (text : String) (maxQuestions : Nat) : List String :=
  (parseQuestionsCore text.data maxQuestions).map String.mk

/-- Constant MAX_TEXT_LENGTH of generate-questions-from-text-tool.ts. -/
def MAX_TEXT_LENGTH : Nat := 4000

/-- The user prompt that generateQuestionsFromTextTool sends to the
completion agent; the embedded document text is
`extractedText.substring(0, MAX_TEXT_LENGTH)`. -/
def questionGenerationPrompt (extractedText : String) (maxQuestions : Nat) : String :=
  "Generate comprehensive questions based on the following content extracted from a PDF.\nPlease create questions that test understanding, analysis, and application of the content.\nGenerate up to "
    ++ toString maxQuestions
    ++ " questions:\n\n"
    ++ String.mk (extractedText.data.take MAX_TEXT_LENGTH)

/-- Outcome of draining the completion stream inside
generateQuestionsFromTextTool: either the concatenated text fragments, or a
thrown error (missing agent, completion failure, or anything else the
surrounding try/catch intercepts). -/
inductive GenOutcome where
  | ok (content : String)
  | err (message : String)
deriving DecidableEq

/-- The output record of generateQuestionsFromTextTool. -/
structure QuestionsResult where
  questions : List String
  questionCount : Nat
  success : Bool
deriving DecidableEq

/-- The execute body of generateQuestionsFromTextTool
(src/unnamed/part_002, lines 101-172): guard against empty input, then
either absorb a thrown error into a failure record, or parse the generated
content when its trimmed length exceeds 20. -/
def generateQuestionsFromTextExecute (extractedText : String) (maxQuestions : Nat)
    (outcome : GenOutcome) : QuestionsResult :=
  if extractedText = "" ∨ trimChars extractedText.data = [] then
    ⟨[], 0, false⟩
  else
    match outcome with
    | .err _ => ⟨[], 0, false⟩
    | .ok generatedContent =>
      if (trimChars generatedContent.data).length > 20 then
        let questions := parseQuestionsFromText generatedContent maxQuestions
        ⟨questions, questions.length, true⟩
      else
        ⟨[], 0, false⟩

/-- The output record of generateQuestionsFromSummaryStep. -/
structure WorkflowQuestionsOutput where
  questions : List String
  success : Bool
deriving DecidableEq

/-- The execute body of generateQuestionsFromSummaryStep
(generate-questions-from-pdf-workflow.ts, lines 49-81): a missing summary
or a throwing tool call degrades to an empty, unsuccessful result. -/
def generateQuestionsFromSummaryStep (summary : String)
    (toolCall : Except String QuestionsResult) : WorkflowQuestionsOutput :=
  if summary = "" then ⟨[], false⟩
  else
    match toolCall with
    | .error _ => ⟨[], false⟩
    | .ok r => ⟨r.questions, r.success⟩

/-- A text run of the pdf2json parse tree; `T` is absent or a string
(an empty string is falsy in JS and is skipped by the extractor). -/
structure PdfTextRun where
  T : Option String
/-- A text item of the pdf2json parse tree. -/
structure PdfTextItem where
  R : Option (List PdfTextRun)
/-- A page of the pdf2json parse tree. -/
structure PdfPage where
  Texts : Option (List PdfTextItem)
/-- The root of the pdf2json parse tree. -/
structure PdfData where
  Pages : Option (List PdfPage)

/-- The terminal event of the pdf2json parser: either the parse tree
(pdfParser_dataReady, with a possibly absent payload) or a parse error
(pdfParser_dataError, with its resolved message). -/
inductive ParseEvent where
  | dataReady (pdfData : Option PdfData)
  | dataError (msg : String)

/-- Characters accumulated for one text run: `decodeURIComponent(T) + ' '`
when `T` is present and truthy. -/
def runText (decode : String → String) (r : PdfTextRun) : List Char :=
  match r.T with
  | some t => if t = "" then [] else (decode t).data ++ [' ']
  | none => []

/-- Characters accumulated for one text item. -/
def itemText (decode : String → String) (it : PdfTextItem) : List Char :=
  match it.R with
  | some runs => (runs.map (runText decode)).flatten
  | none => []

/-- Characters accumulated for one page, with the `'\n\n'` page break the
extractor appends after every page. -/
def pageText (decode : String → String) (p : PdfPage) : List Char :=
  (match p.Texts with
   | some items => (items.map (itemText decode)).flatten
   | none => []) ++ ['\n', '\n']

/-- The raw (untrimmed) text the extractor accumulates over all pages. -/
def pdfRawText (decode : String → String) (pdfData : Option PdfData) : List Char :=
  match pdfData with
  | some d =>
    match d.Pages with
    | some pages => (pages.map (pageText decode)).flatten
    | none => []
  | none => []

/-- The page count the extractor reports: `pdfData.Pages.length`, or 0 when
the pages array is absent. -/
def pdfPageCount (pdfData : Option PdfData) : Nat :=
  match pdfData with
  | some d =>
    match d.Pages with
    | some pages => pages.length
    | none => 0
  | none => 0

/-- The success payload of extractTextFromPDF. -/
structure ExtractionOk where
  extractedText : String
  pagesCount : Nat
deriving DecidableEq

/-- extractTextFromPDF (src/unnamed/part_000): reject an empty buffer before
any parsing, surface parser errors, otherwise accumulate and trim the text
and fail when nothing remains.  decodeURIComponent is modelled as a total
function, so the catch branch wrapping the accumulation loop is
unreachable and omitted. -/
def extractTextFromPDF (pdfBuffer : List UInt8) (event : ParseEvent)
    (decode : String → String) : Except String ExtractionOk :=
  if pdfBuffer.length = 0 then
    .error "Invalid PDF file: empty buffer"
  else
    match event with
    | .dataError msg => .error ("PDF parsing failed: " ++ msg)
    | .dataReady pdfData =>
      if trimChars (pdfRawText decode pdfData) = [] then
        .error "No text could be extracted from the PDF"
      else
        .ok ⟨String.mk (trimChars (pdfRawText decode pdfData)), pdfPageCount pdfData⟩

/-- The output record of pdfFetcherTool. -/
structure FetchOk where
  summary : String
  fileSize : Nat
  pagesCount : Nat
  characterCount : Nat
deriving DecidableEq

/-- The body of pdfFetcherTool's try block (src/unnamed/part_002, lines
22-75): download, extract, check the extraction, look up the summarization
agent, call it, and substitute the placeholder summary when the agent's
text is absent or empty. -/
def fetchRun (downloadResult : Except String (List UInt8)) (event : ParseEvent)
    (decode : String → String) (agentFound : Bool)
    (summaryOutcome : Except String (Option String)) : Except String FetchOk :=
  match downloadResult with
  | .error e => .error e
  | .ok pdfBuffer =>
    match extractTextFromPDF pdfBuffer event decode with
    | .error e => .error e
    | .ok extraction =>
      if extraction.extractedText = "" ∨ trimChars extraction.extractedText.data = [] then
        .error "No text could be extracted from the PDF"
      else if agentFound = false then
        .error "PDF summarization agent not found"
      else
        match summaryOutcome with
        | .error e => .error e
        | .ok summaryText =>
          let summary :=
            match summaryText with
            | none => "Summary could not be generated"
            | some t => if t = "" then "Summary could not be generated" else t
          .ok ⟨summary, pdfBuffer.length, extraction.pagesCount,
               extraction.extractedText.data.length⟩

/-- The execute body of pdfFetcherTool: the catch clause rewraps every
inner failure with the stage-naming prefix. -/
def pdfFetcherExecute (downloadResult : Except String (List UInt8))
    (event : ParseEvent) (decode : String → String) (agentFound : Bool)
    (summaryOutcome : Except String (Option String)) : Except String FetchOk :=
  match fetchRun downloadResult event decode agentFound summaryOutcome with
  | .ok r => .ok r
  | .error e => .error ("Failed to process PDF from URL: " ++ e)

/-- A list whose getLast? is some c contains c. -/
theorem mem_of_getLast?_eq {l : List Char} {c : Char} (h : l.getLast? = some c) :
    c ∈ l := by
  obtain ⟨hne, rfl⟩ := List.mem_getLast?_eq_getLast (show c ∈ l.getLast? from h)
  exact List.getLast_mem hne

/-- A non-empty suffix has the same last element as the whole list. -/
theorem getLast?_of_suffix {s l : List Char} (h : s <:+ l) (hs : s ≠ []) :
    l.getLast? = s.getLast? := by
  obtain ⟨v, rfl⟩ := h
  exact List.getLast?_append_of_ne_nil v hs

/-- The head of a dropWhile result fails the predicate. -/
theorem head?_dropWhile_not {p : Char → Bool} {l : List Char} {c : Char}
    (h : (l.dropWhile p).head? = some c) : p c = false := by
  induction l with
  | nil => simp at h
  | cons a t ih =>
    rw [List.dropWhile_cons] at h
    by_cases hpa : p a = true
    · rw [if_pos hpa] at h; exact ih h
    · rw [if_neg hpa] at h
      simp only [List.head?_cons, Option.some.injEq] at h
      subst h; exact Bool.not_eq_true _ ▸ hpa

/-- dropWhile is the identity when the head already fails the predicate. -/
theorem dropWhile_eq_self_of_head {p : Char → Bool} {l : List Char} {c : Char}
    (h : l.head? = some c) (hc : p c = false) : l.dropWhile p = l := by
  cases l with
  | nil => rfl
  | cons a t =>
    simp only [List.head?_cons, Option.some.injEq] at h
    subst h
    rw [List.dropWhile_cons, if_neg (by simp [hc])]

/-- The remainder returned by matchNumMarker is a suffix of the input. -/
theorem matchNumMarker_suffix {l m r : List Char}
    (h : matchNumMarker l = some (m, r)) : r <:+ l := by
  unfold matchNumMarker at h
  split at h
  · exact absurd h (by simp)
  · split at h
    · exact absurd h (by simp)
    · rename_i c cs heq
      split at h
      · simp only [Option.some.injEq, Prod.mk.injEq] at h
        obtain ⟨-, rfl⟩ := h
        have h1 : List.dropWhile wsChar cs <:+ cs := List.dropWhile_suffix wsChar
        have h2 : cs <:+ List.dropWhile Char.isDigit l := heq ▸ List.suffix_cons c cs
        have h3 : List.dropWhile Char.isDigit l <:+ l := List.dropWhile_suffix Char.isDigit
        exact h1.trans (h2.trans h3)
      · exact absurd h (by simp)

/-- stripNumbering removes only a prefix. -/
theorem stripNumbering_suffix (l : List Char) : stripNumbering l <:+ l := by
  unfold stripNumbering
  split
  · exact matchNumMarker_suffix (by assumption)
  · exact List.suffix_refl l

/-- stripBullet removes only a prefix. -/
theorem stripBullet_suffix (l : List Char) : stripBullet l <:+ l := by
  unfold stripBullet
  split
  · exact List.suffix_refl _
  · split
    · exact (List.dropWhile_suffix wsChar).trans (List.suffix_cons _ _)
    · exact List.suffix_refl _

/-- When the last character is not whitespace, trimming only drops from the
front. -/
theorem trimChars_of_getLast?_not_ws {l : List Char} {c : Char}
    (h : l.getLast? = some c) (hc : wsChar c = false) :
    trimChars l = l.dropWhile wsChar := by
  have hmem : c ∈ l := mem_of_getLast?_eq h
  have hA : l.dropWhile wsChar ≠ [] := by
    intro hnil
    have := List.dropWhile_eq_nil_iff.mp hnil c hmem
    simp [hc] at this
  have hAlast : (l.dropWhile wsChar).getLast? = some c :=
    (getLast?_of_suffix (List.dropWhile_suffix wsChar) hA).symm.trans h
  have hAr : (l.dropWhile wsChar).reverse.head? = some c := by
    rw [List.head?_reverse]; exact hAlast
  unfold trimChars
  rw [dropWhile_eq_self_of_head hAr hc, List.reverse_reverse]

/-- A non-empty trimmed list starts with a non-whitespace character. -/
theorem trimChars_head?_not_ws {l : List Char} {c : Char}
    (h : (trimChars l).head? = some c) : wsChar c = false := by
  unfold trimChars at h
  rw [List.head?_reverse] at h
  have hB : (l.dropWhile wsChar).reverse.dropWhile wsChar ≠ [] := by
    intro hnil; rw [hnil] at h; simp at h
  have h2 : ((l.dropWhile wsChar).reverse).getLast? = some c :=
    (getLast?_of_suffix (List.dropWhile_suffix wsChar) hB).trans h
  rw [List.getLast?_reverse] at h2
  exact head?_dropWhile_not h2

/-- A non-empty trimmed list ends with a non-whitespace character. -/
theorem trimChars_getLast?_not_ws {l : List Char} {c : Char}
    (h : (trimChars l).getLast? = some c) : wsChar c = false := by
  unfold trimChars at h
  rw [List.getLast?_reverse] at h
  exact head?_dropWhile_not h

/-- Trimming is idempotent. -/
theorem trimChars_trimChars (l : List Char) :
    trimChars (trimChars l) = trimChars l := by
  cases hq : trimChars l with
  | nil => rfl
  | cons c t =>
    have hhead : (trimChars l).head? = some c := by rw [hq]; rfl
    have hlast : (trimChars l).getLast? = some ((c :: t).getLast (by simp)) := by
      rw [hq]; exact List.getLast?_eq_getLast _ _
    have hcws : wsChar c = false := trimChars_head?_not_ws hhead
    have hdws : wsChar ((c :: t).getLast (by simp)) = false :=
      trimChars_getLast?_not_ws hlast
    rw [← hq, trimChars_of_getLast?_not_ws hlast hdws,
      dropWhile_eq_self_of_head hhead hcws]

/-- Claim C2 — the question parser first inserts a line break before every
numbered-list marker even mid-line, so the one-line input
"1. What is X? 2. What is Y? 3. What is Z?" with maxQuestions = 10 yields
exactly ["What is X?", "What is Y?", "What is Z?"]. -/
theorem claim_C2 :
    normalizeChars ("1. What is X? 2. What is Y? 3. What is Z?" : String).data
        = ("\n1. What is X? \n2. What is Y? \n3. What is Z?" : String).data
  ∧ parseQuestionsFromText "1. What is X? 2. What is Y? 3. What is Z?" 10
        = ["What is X?", "What is Y?", "What is Z?"] := by
  exact ⟨by decide, by decide⟩

/-- Claim C3 — for every input string and every maxQuestions, each element
of the parser's output ends with the character ? and has length greater
than 5 after trimming. -/
theorem claim_C3 (text : String) (k : Nat) (q : String)
    (hq : q ∈ parseQuestionsFromText text k) :
    q.data.getLast? = some '?' ∧ 5 < (trimChars q.data).length := by
  obtain ⟨l, hl, rfl⟩ := List.mem_map.1 hq
  show l.getLast? = some '?' ∧ 5 < (trimChars l).length
  unfold parseQuestionsCore at hl
  have hl' := (List.take_sublist _ _).subset hl
  obtain ⟨hmem, hkeep⟩ := List.mem_filter.1 hl'
  obtain ⟨s, hs, rfl⟩ := List.mem_map.1 hmem
  unfold keepQuestion at hkeep
  rw [Bool.and_eq_true] at hkeep
  have hlen : 5 < (cleanSegment s).length := of_decide_eq_true hkeep.1
  obtain ⟨line, hline, hsin⟩ := List.mem_flatMap.1 hs
  obtain ⟨p, hp, rfl⟩ := List.mem_map.1 hsin
  have hslast : (p ++ ['?']).getLast? = some '?' := List.getLast?_concat p
  have hysfx : stripBullet (stripNumbering (p ++ ['?'])) <:+ p ++ ['?'] :=
    (stripBullet_suffix _).trans (stripNumbering_suffix _)
  have hqne : cleanSegment (p ++ ['?']) ≠ [] := by
    intro h0; rw [h0] at hlen; simp at hlen
  have hyne : stripBullet (stripNumbering (p ++ ['?'])) ≠ [] := by
    intro h0
    apply hqne
    simp only [cleanSegment, h0]
    rfl
  have hylast : (stripBullet (stripNumbering (p ++ ['?']))).getLast? = some '?' :=
    (getLast?_of_suffix hysfx hyne).symm.trans hslast
  have hclean : cleanSegment (p ++ ['?'])
      = (stripBullet (stripNumbering (p ++ ['?']))).dropWhile wsChar := by
    simp only [cleanSegment]
    exact trimChars_of_getLast?_not_ws hylast (by decide)
  constructor
  · have hsub : cleanSegment (p ++ ['?']) <:+ stripBullet (stripNumbering (p ++ ['?'])) :=
      hclean ▸ List.dropWhile_suffix wsChar
    exact (getLast?_of_suffix hsub hqne).symm.trans hylast
  · have hidem : trimChars (cleanSegment (p ++ ['?'])) = cleanSegment (p ++ ['?']) := by
      simp only [cleanSegment]
      exact trimChars_trimChars _
    rw [hidem]; exact hlen

/-- Claim C4 — for every input text and every maxQuestions k, the parser
returns at most k questions. -/
theorem claim_C4 (text : String) (k : Nat) :
    (parseQuestionsFromText text k).length ≤ k := by
  unfold parseQuestionsFromText parseQuestionsCore
  rw [List.length_map]
  exact List.length_take_le k _

/-- Claim C8 — the parser's output is a sublist of the cleaned candidate
segments in their order of first occurrence in the normalised completion,
so any two surviving segments appear in the output in input order. -/
theorem claim_C8 (text : String) (k : Nat) :
    ((parseQuestionsFromText text k).map String.data).Sublist
      ((candidateSegments text.data).map cleanSegment) := by
  unfold parseQuestionsFromText
  rw [List.map_map]
  have hid : String.data ∘ String.mk = id := funext fun l => rfl
  rw [hid, List.map_id]
  unfold parseQuestionsCore
  exact (List.take_sublist _ _).trans (List.filter_sublist _)

/-- Witness for claim C3 at a concrete input. -/
theorem claim_C3_witness :
    ("What is X?" : String).data.getLast? = some '?'
      ∧ 5 < (trimChars ("What is X?" : String).data).length :=
  claim_C3 "1. What is X?" 10 "What is X?" (by decide)

/-- Claim C9 — every return path of generateQuestionsFromTextTool yields a
result whose questionCount equals the length of its questions array. -/
theorem claim_C9 (text : String) (k : Nat) (outcome : GenOutcome) :
    (generateQuestionsFromTextExecute text k outcome).questionCount
      = (generateQuestionsFromTextExecute text k outcome).questions.length := by
  unfold generateQuestionsFromTextExecute
  split
  · rfl
  · cases outcome with
    | err m => rfl
    | ok c =>
      dsimp only
      split
      · rfl
      · rfl

/-- Claim C7 — any exception raised during the question-generation stage is
absorbed: the tool converts a thrown error into an empty failure record,
and the workflow step converts a throwing tool call into an empty failure
record instead of propagating it. -/
theorem claim_C7 :
    (∀ (text : String) (k : Nat) (msg : String),
        generateQuestionsFromTextExecute text k (.err msg) = ⟨[], 0, false⟩)
  ∧ (∀ (summary msg : String),
        generateQuestionsFromSummaryStep summary (.error msg) = ⟨[], false⟩) := by
  constructor
  · intro text k msg
    unfold generateQuestionsFromTextExecute
    split
    · rfl
    · rfl
  · intro summary msg
    unfold generateQuestionsFromSummaryStep
    split
    · rfl
    · rfl

/-- Counterexample for claim C1 — the completion text
"This document has no question marks at all." passes the non-trivial check,
but the tool returns success: true with a non-empty question list (the
parser re-appends a question mark to the whole sentence), not
questions: [] with success: false as the claim states. -/
theorem claim_C1_counterexample :
    (generateQuestionsFromTextExecute "doc" 10
        (.ok "This document has no question marks at all.")).success = true
  ∧ (generateQuestionsFromTextExecute "doc" 10
        (.ok "This document has no question marks at all.")).questions
      = ["This document has no question marks at all.?"] := by
  exact ⟨by decide, by decide⟩

/-- Claim C1 as amended — whenever the raw completion passes the caller's
non-trivial check (trimmed length > 20), the operation does not throw and
returns the parser's output with success: true, even when that output is
empty; the example input is not a zero-segment case, since the parser
returns the whole sentence with a re-appended question mark. -/
theorem claim_C1_amended (text content : String) (k : Nat)
    (h1 : trimChars text.data ≠ [])
    (h2 : (trimChars content.data).length > 20) :
    generateQuestionsFromTextExecute text k (.ok content)
      = ⟨parseQuestionsFromText content k,
         (parseQuestionsFromText content k).length, true⟩ := by
  have hcond : ¬(text = "" ∨ trimChars text.data = []) := by
    rintro (rfl | hcon)
    · exact h1 rfl
    · exact h1 hcon
  unfold generateQuestionsFromTextExecute
  rw [if_neg hcond]
  dsimp only
  rw [if_pos h2]

/-- Witness for the amended claim C1 at a concrete input. -/
theorem claim_C1_witness :
    generateQuestionsFromTextExecute "doc" 7 (.ok "1. What is the capital of France?")
      = ⟨parseQuestionsFromText "1. What is the capital of France?" 7,
         (parseQuestionsFromText "1. What is the capital of France?" 7).length, true⟩ :=
  claim_C1_amended "doc" "1. What is the capital of France?" 7 (by decide) (by decide)

/-- Claim C5 — the prompt sent to the completion service depends only on
the first MAX_TEXT_LENGTH = 4000 characters of the input text, and the
embedded slice never exceeds 4000 characters. -/
theorem claim_C5 :
    (∀ (text : String) (k : Nat),
        questionGenerationPrompt text k
          = questionGenerationPrompt (String.mk (text.data.take MAX_TEXT_LENGTH)) k)
  ∧ (∀ text : String, (text.data.take MAX_TEXT_LENGTH).length ≤ MAX_TEXT_LENGTH) := by
  constructor
  · intro text k
    unfold questionGenerationPrompt
    have h : ((String.mk (text.data.take MAX_TEXT_LENGTH)).data.take MAX_TEXT_LENGTH)
        = text.data.take MAX_TEXT_LENGTH := by
      show ((text.data.take MAX_TEXT_LENGTH).take MAX_TEXT_LENGTH)
          = text.data.take MAX_TEXT_LENGTH
      rw [List.take_take, Nat.min_self]
    rw [h]
  · intro text
    exact List.length_take_le _ _

/-- Two strings with the same character data are equal. -/
theorem string_eq_of_data_eq {s t : String} (h : s.data = t.data) : s = t := by
  cases s; cases t; exact congrArg String.mk h

/-- A successful extraction returns trimmed, non-empty text. -/
theorem extractTextFromPDF_ok_shape (buf : List UInt8) (ev : ParseEvent)
    (decode : String → String) (r : ExtractionOk)
    (h : extractTextFromPDF buf ev decode = .ok r) :
    trimChars r.extractedText.data = r.extractedText.data
      ∧ r.extractedText ≠ "" := by
  unfold extractTextFromPDF at h
  split at h
  · exact absurd h (by simp)
  · cases ev with
    | dataError msg => exact absurd h (by simp)
    | dataReady pdfData =>
      dsimp only at h
      split at h
      · exact absurd h (by simp)
      · rename_i hne
        simp only [Except.ok.injEq] at h
        subst h
        refine ⟨trimChars_trimChars _, ?_⟩
        intro h0
        apply hne
        exact congrArg String.data h0

/-- Claim C6 — the extractor fails with the empty-buffer error before any
parse attempt when the buffer is empty, fails with the distinct no-text
error when the parsed document trims to nothing, and on success returns
trimmed non-empty text with a page count that is at least zero. -/
theorem claim_C6 :
    (∀ (ev : ParseEvent) (decode : String → String),
        extractTextFromPDF [] ev decode = .error "Invalid PDF file: empty buffer")
  ∧ (∀ (buf : List UInt8) (decode : String → String) (pdfData : Option PdfData),
        buf ≠ [] → trimChars (pdfRawText decode pdfData) = [] →
        extractTextFromPDF buf (.dataReady pdfData) decode
          = .error "No text could be extracted from the PDF")
  ∧ (∀ (buf : List UInt8) (ev : ParseEvent) (decode : String → String)
        (r : ExtractionOk),
        extractTextFromPDF buf ev decode = .ok r →
        trimChars r.extractedText.data = r.extractedText.data
          ∧ r.extractedText ≠ "" ∧ 0 ≤ r.pagesCount) := by
  refine ⟨fun ev decode => rfl, ?_, ?_⟩
  · intro buf decode pdfData hbuf htrim
    unfold extractTextFromPDF
    rw [if_neg (fun h0 => hbuf (List.length_eq_zero.mp h0))]
    dsimp only
    rw [if_pos htrim]
  · intro buf ev decode r h
    obtain ⟨h1, h2⟩ := extractTextFromPDF_ok_shape buf ev decode r h
    exact ⟨h1, h2, Nat.zero_le _⟩

/-- Witness for claim C6 at concrete inputs, one per conjunct. -/
theorem claim_C6_witness :
    extractTextFromPDF [] (.dataError "boom") id
        = .error "Invalid PDF file: empty buffer"
  ∧ extractTextFromPDF [(0 : UInt8)] (.dataReady none) id
        = .error "No text could be extracted from the PDF"
  ∧ (trimChars (("Hello" : String)).data = ("Hello" : String).data
      ∧ ("Hello" : String) ≠ "" ∧ 0 ≤ (1 : Nat)) :=
  ⟨claim_C6.1 (.dataError "boom") id,
   claim_C6.2.1 [(0 : UInt8)] id none (by decide) rfl,
   claim_C6.2.2 [(0 : UInt8)]
     (.dataReady (some ⟨some [⟨some [⟨some [⟨some "Hello"⟩]⟩]⟩]⟩)) id
     ⟨"Hello", 1⟩ rfl⟩

/-- Claim C10 — when the download and extraction succeed, the agent is
found, and the summarization call completes with empty or missing text,
pdfFetcherTool does not fail: it returns the placeholder summary together
with the real file size, page count, and extracted character count. -/
theorem claim_C10 (buf : List UInt8) (ev : ParseEvent) (decode : String → String)
    (r : ExtractionOk) (s : Option String)
    (hx : extractTextFromPDF buf ev decode = .ok r)
    (hs : s = none ∨ s = some "") :
    pdfFetcherExecute (.ok buf) ev decode true (.ok s)
      = .ok ⟨"Summary could not be generated", buf.length, r.pagesCount,
             r.extractedText.data.length⟩ := by
  obtain ⟨h1, h2⟩ := extractTextFromPDF_ok_shape buf ev decode r hx
  have hdata : r.extractedText.data ≠ [] := by
    intro h0
    exact h2 (string_eq_of_data_eq (h0.trans rfl))
  have hguard : ¬(r.extractedText = "" ∨ trimChars r.extractedText.data = []) := by
    rintro (h0 | h0)
    · exact h2 h0
    · rw [h1] at h0; exact hdata h0
  unfold pdfFetcherExecute fetchRun
  dsimp only
  rw [hx]
  dsimp only
  rw [if_neg hguard]
  rw [if_neg (by simp)]
  rcases hs with rfl | rfl
  · rfl
  · rfl

/-- Witness for claim C10 at a concrete input. -/
theorem claim_C10_witness :
    pdfFetcherExecute (.ok [(0 : UInt8)])
        (.dataReady (some ⟨some [⟨some [⟨some [⟨some "Hello"⟩]⟩]⟩]⟩)) id true (.ok none)
      = .ok ⟨"Summary could not be generated", [(0 : UInt8)].length,
             (⟨"Hello", 1⟩ : ExtractionOk).pagesCount,
             (⟨"Hello", 1⟩ : ExtractionOk).extractedText.data.length⟩ :=
  claim_C10 [(0 : UInt8)]
    (.dataReady (some ⟨some [⟨some [⟨some [⟨some "Hello"⟩]⟩]⟩]⟩)) id
    ⟨"Hello", 1⟩ none rfl (Or.inl rfl)
